import Mathlib

/-!
Shallow embedding of the SPX market-maker Greeks analytics pipeline
(`backend/exposures.py`, `backend/greeks.py`, `backend/interpretation.py`,
`backend/main.py`).

Python floats are modelled as exact rationals (`ℚ`); a possibly
non-finite float (NaN / ±inf) is modelled as `Option ℚ` with `none`
standing for the non-finite case, so that `np.isfinite x` becomes
`x.isSome`.  Python exceptions surfaced to callers are modelled with
`Except`.
-/

namespace Spx

/-- A Python float that may be NaN/±inf: `none` = non-finite. -/
abbrev FloatVal := Option ℚ

/-- Embedding of `backend/models.py` `Greeks`: validated per-contract sensitivities. -/
structure Greeks where
  delta : ℚ
  gamma : ℚ
  vanna : ℚ
  charm : ℚ
deriving Repr, DecidableEq

/-- Embedding of `backend/models.py` `Exposures`: the four signed exposure metrics. -/
structure Exposures where
  gex : ℚ
  dex : ℚ
  vex : ℚ
  cex : ℚ
deriving Repr, DecidableEq

/-- Embedding of `backend/models.py` `Regime`: one sign symbol per exposure metric. -/
structure Regime where
  g : String
  d : String
  v : String
  c : String
deriving Repr, DecidableEq

/-- From `backend/exposures.py` lines 88-112, `calculate_safe_exposure`:
guarded market-maker exposure `-OI * greek * multiplier`.  The final
NaN/overflow check of the Python code (`np.isnan(raw_value) or
np.isinf(raw_value)`) is vacuous over exact rationals, where a product
of finite values is finite. -/
def calculate_safe_exposure (open_interest greek_value multiplier : FloatVal) : ℚ :=
  match open_interest with
  | none => 0
  | some oi =>
    if oi < 0 then 0
    else
      match greek_value with
      | none => 0
      | some g =>
        match multiplier with
        | none => 0
        | some m =>
          if m ≤ 0 then 0
          else -oi * g * m

/-- From `backend/exposures.py` lines 114-124: the four per-contract exposures
computed from the validated Greeks, the (finite) spot price and the
contract's open interest. -/
def contractExposures (open_interest : FloatVal) (greeks : Greeks) (spot_price : ℚ) :
    Exposures :=
  { gex := calculate_safe_exposure open_interest (some greeks.gamma) (some (spot_price ^ 2 * 100))
    dex := calculate_safe_exposure open_interest (some greeks.delta) (some (spot_price * 100))
    vex := calculate_safe_exposure open_interest (some greeks.vanna) (some (spot_price * 100))
    cex := calculate_safe_exposure open_interest (some greeks.charm) (some (spot_price * 100)) }

/-- From `backend/exposures.py` lines 250-254, `classify_regime`: sign symbol of a
value against the neutral threshold (strict `<` keeps the neutral band open). -/
def classify_regime (value neutral_threshold : ℚ) : String :=
  if |value| < neutral_threshold then "o"
  else if value > 0 then "+" else "-"

/-- Median as computed by `np.median` on a list of rationals: sort ascending; middle element for odd
length, mean of the two middle elements for even length. -/
def npMedian (values : List ℚ) : ℚ :=
  let sorted := List.insertionSort (fun a b => a ≤ b) values
  let n := sorted.length
  if n % 2 = 1 then sorted.getD (n / 2) 0
  else (sorted.getD (n / 2 - 1) 0 + sorted.getD (n / 2) 0) / 2

/-- From `backend/exposures.py` lines 241-248, `calculate_neutral_threshold`:
`epsilon` for an empty batch, else `max(epsilon, 0.05 * median(|values|))`. -/
def calculate_neutral_threshold (values : List ℚ) (epsilon : ℚ) : ℚ :=
  if values = [] then epsilon
  else max epsilon ((5 / 100) * npMedian (values.map (fun v => |v|)))

/-- The transcendental primitives used by `backend/greeks.py` (`np.log`,
`np.exp`, `np.sqrt`, `scipy.stats.norm.cdf/pdf`), kept abstract: the
Black-Scholes body is embedded as an expression in these functions. -/
structure RealFns where
  log : ℚ → ℚ
  exp : ℚ → ℚ
  sqrt : ℚ → ℚ
  normCdf : ℚ → ℚ
  normPdf : ℚ → ℚ

/-- From `backend/greeks.py` lines 5-64, `calculate_greeks`: closed-form Greeks.
The degenerate-input guard returns all-zero Greeks before anything else is
evaluated; an unknown option type raises `ValueError`, modelled as
`Except.error`. -/
def calculate_greeks (fns : RealFns) (S K T r q sigma : ℚ) (option_type : String) :
    Except String Greeks :=
  if T ≤ 0 ∨ sigma ≤ 0 ∨ S ≤ 0 ∨ K ≤ 0 then
    .ok ⟨0, 0, 0, 0⟩
  else
    let d1 := (fns.log (S / K) + (r - q + (1 / 2) * sigma ^ 2) * T) / (sigma * fns.sqrt T)
    let d2 := d1 - sigma * fns.sqrt T
    let n_d1 := fns.normPdf d1
    if option_type.toLower = "call" then
      .ok { delta := fns.exp (-q * T) * fns.normCdf d1
            gamma := fns.exp (-q * T) * n_d1 / (S * sigma * fns.sqrt T)
            vanna := fns.exp (-q * T) * n_d1 * fns.sqrt T
            charm := -(fns.exp (-q * T)) * n_d1 *
              (q + (r - q) * d1 / (sigma * fns.sqrt T) - d2 * sigma / (2 * fns.sqrt T)) }
    else if option_type.toLower = "put" then
      .ok { delta := -(fns.exp (-q * T)) * fns.normCdf (-d1)
            gamma := fns.exp (-q * T) * n_d1 / (S * sigma * fns.sqrt T)
            vanna := -(fns.exp (-q * T)) * n_d1 * fns.sqrt T
            charm := -(fns.exp (-q * T)) * n_d1 *
              (q + (r - q) * d1 / (sigma * fns.sqrt T) - d2 * sigma / (2 * fns.sqrt T)) }
    else
      .error "option_type must be call or put"

/-- From `backend/interpretation.py` lines 25-71, `determine_conductivity`:
fixed decision table over the four regime symbols, the two alignment rows
additionally conditioned on the VIX regime label. -/
def determine_conductivity (regime : Regime) (vix_regime : String) : String × String :=
  if regime.g = "-" then
    if regime.d = "-" ∧ regime.v = "-" ∧ regime.c = "-" then
      if vix_regime = "FALLING" ∨ vix_regime = "AUTO" then
        ("RALLY-CONDUCIVE", "Strong bearish alignment with supportive VIX regime. Momentum amplification likely to accelerate rallies.")
      else
        ("MIXED", "Bearish alignment but VIX rising creates uncertainty. Watch for volatility spike cushioning.")
    else if regime.d = "+" ∧ regime.v = "+" ∧ regime.c = "+" then
      if vix_regime = "RISING" ∨ vix_regime = "AUTO" then
        ("SELL-OFF-CONDUCIVE", "Strong bullish alignment with rising VIX. Momentum amplification likely to accelerate sell-offs.")
      else
        ("MIXED", "Bullish alignment but VIX falling creates uncertainty. VEX cushion may protect upside.")
    else if regime.d = "-" ∧ regime.v = "+" ∧ regime.c = "-" then
      ("CONDITIONAL_VOID", "Accelerates downside momentum but VEX provides cushion during volatility spikes. High-probability floor formation zone.")
    else if regime.d = "+" ∧ regime.v = "-" ∧ regime.c = "+" then
      ("BOUNCE_CANDIDATE", "Strong compression with buying pressure and volatility cushion. Potential reversal setup zone.")
    else
      ("MIXED_CHOP", "No clear directional alignment across exposures. Expect range-bound or choppy conditions.")
  else if regime.g = "+" then
    if regime.d = "+" ∧ regime.v = "+" ∧ regime.c = "-" then
      ("CEILING_MAGNET", "Extreme compression with strong directional buying support. Pin behavior expected at this level.")
    else if regime.d = "+" ∧ regime.v = "-" ∧ regime.c = "+" then
      ("STRUCTURAL_SUPPORT", "Strong compression with aggressive market maker buying. High-probability support level.")
    else
      ("MIXED_CHOP", "No clear directional alignment across exposures. Expect range-bound or choppy conditions.")
  else
    ("MIXED_CHOP", "No clear directional alignment across exposures. Expect range-bound or choppy conditions.")

/-- Insertion into a Python dict modelled as an association list: a repeated
key overwrites the earlier value in place (later literal entries win). -/
def dictInsert : List (String × String) → String → String → List (String × String)
  | [], k, v => [(k, v)]
  | (k', v') :: rest, k, v =>
    if k' = k then (k, v) :: rest else (k', v') :: dictInsert rest k v

/-- Lookup in the association-list dict model (keys are unique by
construction, so the first match is the value). -/
def dictGet : List (String × String) → String → Option String
  | [], _ => none
  | (k', v') :: rest, k => if k' = k then some v' else dictGet rest k

/-- The six entries of the `terrain_map` dict literal of
`backend/interpretation.py` lines 86-93, in source order.  The keys
`"G- D- V+ C-"` and `"G+ D+ V- C+"` each appear twice. -/
def terrainEntries : List (String × String) :=
  [("G+ D+ V+ C-", "CEILING/MAGNET — Extreme compression + directional buying support. Pin behavior expected."),
   ("G- D- V- C+", "ACCELERATION ZONE (DOWN) — All directional Greeks aligned bearish. No support structure."),
   ("G- D- V+ C-", "HIGH-VELOCITY DOWN — Momentum amplified, but VEX provides vol-spike cushion. Trapped longs above."),
   ("G+ D+ V- C+", "BOUNCE CANDIDATE — Compression + buying pressure + vol-spike cushion. Reversal setup zone."),
   ("G- D- V+ C-", "CONDITIONAL VOID — Accelerates down, BUT vol spike triggers MM buying (V+ override)."),
   ("G+ D+ V- C+", "STRUCTURAL SUPPORT — Strong compression + aggressive MM buying. High-probability floor.")]

/-- The `terrain_map` dict that the literal of lines 86-93 evaluates to:
entries inserted in source order, later duplicates overriding. -/
def terrain_map : List (String × String) :=
  terrainEntries.foldl (fun m e => dictInsert m e.1 e.2) []

/-- The base terrain description looked up for a regime code
(`terrain_map.get(regime_code, "NEUTRAL — ...")`). -/
def terrainBase (regime_code : String) : String :=
  (dictGet terrain_map regime_code).getD
    "NEUTRAL — No significant terrain features identified."

/-- From `backend/interpretation.py` lines 97-104: positional (moneyness) suffix
appended to the terrain classification. -/
def moneynessTag (spot_price strike : ℚ) : String :=
  if |strike - spot_price| / spot_price < 1 / 100 then " (AT-THE-MONEY)"
  else if strike > spot_price then " (OUT-OF-THE-MONEY CALL)"
  else " (OUT-OF-THE-MONEY PUT)"

/-- From `backend/interpretation.py` lines 73-106, `classify_strike_terrain`:
terrain description for a regime code plus moneyness suffix, and the
pattern flags. -/
def classify_strike_terrain (regime_code : String) (spot_price strike : ℚ) :
    String × List String :=
  (terrainBase regime_code ++ moneynessTag spot_price strike,
   if regime_code = "G- D- V- C+" then ["MAX_DOWNSIDE_ACCELERATION"] else [])

/-- From `backend/interpretation.py` lines 6-23, `classify_exposure_regime`:
regime symbols for the four metrics against the batch-derived neutral
threshold, plus the formatted regime code. -/
def classify_exposure_regime (gex dex vex cex : ℚ) (all_values : List ℚ)
    (epsilon : ℚ) : Regime × String :=
  let t := calculate_neutral_threshold all_values epsilon
  let regime : Regime :=
    { g := classify_regime gex t
      d := classify_regime dex t
      v := classify_regime vex t
      c := classify_regime cex t }
  (regime, "G" ++ regime.g ++ " D" ++ regime.d ++ " V" ++ regime.v ++ " C" ++ regime.c)

/-- The contract fields read by the strike aggregation loops of
`backend/exposures.py` (`strike`, `option_type`, `open_interest`). -/
structure ContractInfo where
  strike : ℚ
  option_type : String
  open_interest : ℤ
deriving Repr, DecidableEq

/-- One value of the per-strike `defaultdict` of `backend/exposures.py`
lines 136-140 / 180-184. -/
structure StrikeAgg where
  gex : ℚ
  dex : ℚ
  vex : ℚ
  cex : ℚ
  call_oi : ℤ
  put_oi : ℤ
  contracts : List (ContractInfo × Exposures × Greeks)
deriving Repr, DecidableEq

/-- The fresh `defaultdict` entry (all accumulators zero). -/
def emptyAgg : StrikeAgg :=
  { gex := 0, dex := 0, vex := 0, cex := 0, call_oi := 0, put_oi := 0, contracts := [] }

/-- The per-contract update of a strike's accumulator
(`backend/exposures.py` lines 147-162 and 205-220): add the four
exposures, split open interest by option type, record the contract. -/
def addContract (a : StrikeAgg) (c : ContractInfo) (e : Exposures) (g : Greeks) :
    StrikeAgg :=
  { gex := a.gex + e.gex
    dex := a.dex + e.dex
    vex := a.vex + e.vex
    cex := a.cex + e.cex
    call_oi := a.call_oi + (if c.option_type.toLower = "call" then c.open_interest else 0)
    put_oi := a.put_oi + (if c.option_type.toLower = "call" then 0 else c.open_interest)
    contracts := a.contracts ++ [(c, e, g)] }

/-- Update of the strike-keyed dict (`strike_data[strike] ... +=`): apply
`addContract` to the existing entry, or to a fresh `emptyAgg` entry when
the strike key is new (insertion order preserved, as in a Python dict). -/
def upsertStrike (m : List (ℚ × StrikeAgg)) (c : ContractInfo) (e : Exposures)
    (g : Greeks) : List (ℚ × StrikeAgg) :=
  match m with
  | [] => [(c.strike, addContract emptyAgg c e g)]
  | (k, v) :: rest =>
    if k = c.strike then (k, addContract v c e g) :: rest
    else (k, v) :: upsertStrike rest c e g

/-- From `backend/exposures.py` lines 128-164, `aggregate_by_strike`,
parameterised by the per-contract exposure computation
(`calculate_contract_exposures` applied at fixed spot, rate, yield and
evaluation time): every contract is accumulated into its strike's entry. -/
def aggregate_by_strike (calcExp : ContractInfo → Exposures × Greeks)
    (contracts : List ContractInfo) : List (ℚ × StrikeAgg) :=
  contracts.foldl
    (fun m c =>
      let eg := calcExp c
      upsertStrike m c eg.1 eg.2)
    []

/-- The all-four-exposures-below-tolerance test of `backend/exposures.py`
lines 193-194 (tolerance `1e-10`). -/
def effectivelySkipped (e : Exposures) : Bool :=
  |e.gex| < 1 / 10 ^ 10 ∧ |e.dex| < 1 / 10 ^ 10 ∧
  |e.vex| < 1 / 10 ^ 10 ∧ |e.cex| < 1 / 10 ^ 10

/-- From `backend/exposures.py` lines 167-225, `aggregate_by_strike_with_logging`:
same accumulation, except that a contract whose four exposures all fall
below the `1e-10` tolerance is counted as skipped and `continue`d past
(its open interest and strike key are not recorded). -/
def aggregate_by_strike_with_logging (calcExp : ContractInfo → Exposures × Greeks)
    (contracts : List ContractInfo) : List (ℚ × StrikeAgg) :=
  contracts.foldl
    (fun m c =>
      let eg := calcExp c
      if effectivelySkipped eg.1 then m
      else upsertStrike m c eg.1 eg.2)
    []

/-- The `(skipped, processed)` diagnostic counters accumulated by
`aggregate_by_strike_with_logging` (printed, never returned). -/
def skippedProcessedCounts (calcExp : ContractInfo → Exposures × Greeks)
    (contracts : List ContractInfo) : ℕ × ℕ :=
  contracts.foldl
    (fun n c =>
      if effectivelySkipped (calcExp c).1 then (n.1 + 1, n.2)
      else (n.1, n.2 + 1))
    (0, 0)

/-- From `backend/exposures.py` lines 227-239, `aggregate_all_expirations`:
totals of the four exposure fields over all strike entries. -/
def aggregate_all_expirations (m : List (ℚ × StrikeAgg)) : Exposures :=
  m.foldl
    (fun t p =>
      { gex := t.gex + p.2.gex
        dex := t.dex + p.2.dex
        vex := t.vex + p.2.vex
        cex := t.cex + p.2.cex })
    ⟨0, 0, 0, 0⟩

/-- The fields of `backend/models.py` `StrikeData` populated by
`get_exposures` (the constant `meta` dict is omitted). -/
structure StrikeData where
  strike : ℚ
  gex : ℚ
  dex : ℚ
  vex : ℚ
  cex : ℚ
  regime : Regime
  regime_code : String
  classification : String
  pattern_flags : List String
  call_oi : ℤ
  put_oi : ℤ
deriving Repr, DecidableEq

/-- An `HTTPException` raised by `backend/main.py`, tagged by status code. -/
inductive ApiError where
  | badRequest : String → ApiError
  | internal : String → ApiError
deriving Repr, DecidableEq

/-- The successful `/api/exposures` payload (`backend/main.py`
lines 234-246). -/
structure ExposuresResponse where
  spot : ℚ
  expiration : String
  agg : Exposures
  agg_regime : Regime
  agg_regime_code : String
  conductivity : String
  notes : String
  vix_used : String
  vix_warning : Option String
  strikes : List StrikeData
deriving Repr, DecidableEq

/-- From `backend/main.py` lines 105-112 and 273-280: the VIX regime actually
used downstream — `AUTO` is replaced by `FALLING` before any conductivity
determination. -/
def vix_regime_used (vix_regime : String) : String :=
  if vix_regime = "AUTO" then "FALLING" else vix_regime

/-- From `backend/main.py` lines 164-204: build the per-strike `StrikeData` list,
extending the running `all_exposure_values` batch with each strike's four
exposures before classifying that strike.  Returns the final batch and the
strike list. -/
def buildStrikes (spot : ℚ) (aggs : List (ℚ × StrikeAgg)) :
    List ℚ × List StrikeData :=
  aggs.foldl
    (fun acc p =>
      let vals := acc.1 ++ [p.2.gex, p.2.dex, p.2.vex, p.2.cex]
      let rc := classify_exposure_regime p.2.gex p.2.dex p.2.vex p.2.cex vals (1 / 20)
      let ct := classify_strike_terrain rc.2 spot p.1
      (vals,
       acc.2 ++ [{ strike := p.1
                   gex := p.2.gex, dex := p.2.dex, vex := p.2.vex, cex := p.2.cex
                   regime := rc.1, regime_code := rc.2
                   classification := ct.1, pattern_flags := ct.2
                   call_oi := p.2.call_oi, put_oi := p.2.put_oi }]))
    ([], [])

/-- From `backend/main.py` lines 94-253, `get_exposures`, downstream of chain
retrieval: input is the strike aggregation produced by
`aggregate_by_strike_with_logging`.  An invalid VIX regime is a 400 error;
an empty strike list raises the no-data `HTTPException(503)` inside the
`try` block, which the surrounding `except Exception` re-raises as a 500
error — either way an error result, never a success. -/
def get_exposures (vix_regime : String) (spot_price : ℚ) (expiration : String)
    (strike_aggregations : List (ℚ × StrikeAgg)) : Except ApiError ExposuresResponse :=
  if vix_regime ≠ "RISING" ∧ vix_regime ≠ "FALLING" ∧ vix_regime ≠ "AUTO" then
    .error (.badRequest "vix_regime must be RISING, FALLING, or AUTO")
  else
    let vused := vix_regime_used vix_regime
    let warning : Option String :=
      if vix_regime = "AUTO" then
        some "AUTO regime used without VIX data available - defaulting to FALLING"
      else none
    let vs := buildStrikes spot_price strike_aggregations
    if vs.2.length > 0 then
      let agg := aggregate_all_expirations strike_aggregations
      let rc := classify_exposure_regime agg.gex agg.dex agg.vex agg.cex vs.1 (1 / 20)
      let cn := determine_conductivity rc.1 vused
      .ok { spot := spot_price
            expiration := expiration
            agg := agg
            agg_regime := rc.1
            agg_regime_code := rc.2
            conductivity := cn.1
            notes := cn.2
            vix_used := vused
            vix_warning := warning
            strikes := vs.2 }
    else
      .error (.internal
        "Failed to calculate exposures: 503: No options market data available. Unable to calculate Greek exposures.")

/-- Lookup in a strike-to-value association list with a default
(`expiration_data[exp].get(strike, 0.0)`). -/
def lookupD (m : List (ℚ × ℚ)) (k : ℚ) (d : ℚ) : ℚ :=
  match m with
  | [] => d
  | (k', v) :: rest => if k' = k then v else lookupD rest k d

/-- The union of all strikes seen across the successful expirations
(the Python `all_strikes` set), with duplicates removed. -/
def allStrikes (exps : List (String × Option (List (ℚ × ℚ)))) : List ℚ :=
  ((exps.filterMap (fun e => e.2)).flatMap (fun m => m.map Prod.fst)).dedup

/-- From `backend/main.py` lines 255-362, `get_exposures_matrix`, downstream of
data retrieval: each requested expiration comes with `some` strike→metric
map when its sub-pipeline succeeded, or `none` when it failed upstream.
The requested list is truncated to 8; the strike axis is the sorted union
truncated to 25; each row is filled by lookup with default `0.0`, a failed
expiration yielding an all-zero row.  Returns `(y_strikes, z)`. -/
def get_exposures_matrix (exps : List (String × Option (List (ℚ × ℚ)))) :
    List ℚ × List (List ℚ) :=
  let all_expirations := exps.take 8
  let common_strikes :=
    (List.insertionSort (fun a b => a ≤ b) (allStrikes all_expirations)).take 25
  let z := all_expirations.map
    (fun e =>
      match e.2 with
      | some m => common_strikes.map (fun strike => lookupD m strike 0)
      | none => List.replicate common_strikes.length 0)
  (common_strikes, z)

/-! ## Theorems -/

lemma calculate_safe_exposure_formula (oi g m : ℚ) (hoi : 0 ≤ oi) (hm : 0 < m) :
    calculate_safe_exposure (some oi) (some g) (some m) = -(oi * g * m) := by
  simp only [calculate_safe_exposure]
  rw [if_neg (not_lt.mpr hoi), if_neg (not_le.mpr hm)]
  ring

/-- C1: every exposure metric is `-(open interest) * greek * scaling factor`,
with GEX scaled by `spot^2 * 100` and DEX/VEX/CEX by `spot * 100`; a
non-finite or negative open interest, a non-finite greek, or a non-finite
or non-positive scaling factor forces that metric to exactly 0; open
interest 0 gives all four exposures exactly 0; and OI 1000, gamma 0.02,
spot 4700 give GEX = -1000 * 0.02 * 4700^2 * 100 = -44180000000. -/
theorem C1_exposure_formula_and_guards :
    (∀ (oi : ℚ) (greeks : Greeks) (spot : ℚ), 0 ≤ oi → 0 < spot →
      contractExposures (some oi) greeks spot =
        { gex := -(oi * greeks.gamma * (spot ^ 2 * 100))
          dex := -(oi * greeks.delta * (spot * 100))
          vex := -(oi * greeks.vanna * (spot * 100))
          cex := -(oi * greeks.charm * (spot * 100)) }) ∧
    (∀ g m, calculate_safe_exposure none g m = 0) ∧
    (∀ oi : ℚ, oi < 0 → ∀ g m, calculate_safe_exposure (some oi) g m = 0) ∧
    (∀ oi m, calculate_safe_exposure oi none m = 0) ∧
    (∀ oi g, calculate_safe_exposure oi g none = 0) ∧
    (∀ oi g m : ℚ, m ≤ 0 → calculate_safe_exposure (some oi) (some g) (some m) = 0) ∧
    (∀ (greeks : Greeks) (spot : ℚ), contractExposures (some 0) greeks spot = ⟨0, 0, 0, 0⟩) ∧
    (contractExposures (some 1000) ⟨0, 2 / 100, 0, 0⟩ 4700).gex = -44180000000 := by
  refine ⟨?_, ?_, ?_, ?_, ?_, ?_, ?_, ?_⟩
  · intro oi greeks spot hoi hspot
    have h2 : (0 : ℚ) < spot ^ 2 * 100 := mul_pos (pow_pos hspot 2) (by norm_num)
    have h1 : (0 : ℚ) < spot * 100 := mul_pos hspot (by norm_num)
    simp only [contractExposures]
    rw [calculate_safe_exposure_formula _ _ _ hoi h2,
      calculate_safe_exposure_formula _ _ _ hoi h1,
      calculate_safe_exposure_formula _ _ _ hoi h1,
      calculate_safe_exposure_formula _ _ _ hoi h1]
  · intro g m; rfl
  · intro oi hoi g m
    simp [calculate_safe_exposure, if_pos hoi]
  · intro oi m
    cases oi <;> simp [calculate_safe_exposure]
  · intro oi g
    cases oi <;> cases g <;> simp [calculate_safe_exposure]
  · intro oi g m hm
    simp [calculate_safe_exposure, hm]
  · intro greeks spot
    simp [contractExposures, calculate_safe_exposure]
  · norm_num [contractExposures, calculate_safe_exposure]

theorem C1_exposure_formula_and_guards_witness :
    contractExposures (some 2) ⟨1, 1, 1, 1⟩ 10 =
      { gex := -(2 * (1 : ℚ) * ((10 : ℚ) ^ 2 * 100))
        dex := -(2 * (1 : ℚ) * ((10 : ℚ) * 100))
        vex := -(2 * (1 : ℚ) * ((10 : ℚ) * 100))
        cex := -(2 * (1 : ℚ) * ((10 : ℚ) * 100)) } :=
  C1_exposure_formula_and_guards.1 2 ⟨1, 1, 1, 1⟩ 10 (by norm_num) (by norm_num)

/-- C2: the claim says a value exactly at ±threshold classifies as neutral
`"o"`; the code's test `abs(value) < neutral_threshold` is strict, so the
boundary falls through to the sign branch: `classify_regime(0.5, 0.5)` is
`"+"` and `classify_regime(-0.5, 0.5)` is `"-"`, contradicting the claim
and the repository's own tests (`test_exposures.py`, "At threshold"
assertions expecting `"o"`). -/
theorem C2_boundary_equality_not_neutral :
    classify_regime (1 / 2) (1 / 2) = "+" ∧ classify_regime (-(1 / 2)) (1 / 2) = "-" := by
  constructor
  · unfold classify_regime
    rw [if_neg (by norm_num [abs_of_nonneg]), if_pos (by norm_num)]
  · unfold classify_regime
    rw [if_neg (by norm_num [abs_of_nonpos]), if_neg (by norm_num)]

/-- C4: the neutral threshold is `epsilon` on the empty batch and
`max(epsilon, 0.05 * median(|values|))` otherwise; with the default
epsilon `0.05`, the empty batch gives `0.05` and
`[1,-1,2,-2,10,-10]` gives `0.1`. -/
theorem C4_neutral_threshold_spec :
    (∀ eps : ℚ, calculate_neutral_threshold [] eps = eps) ∧
    (∀ (values : List ℚ) (eps : ℚ), values ≠ [] →
      calculate_neutral_threshold values eps =
        max eps ((5 / 100) * npMedian (values.map (fun v => |v|)))) ∧
    calculate_neutral_threshold [] (1 / 20) = 1 / 20 ∧
    calculate_neutral_threshold [1, -1, 2, -2, 10, -10] (1 / 20) = 1 / 10 := by
  refine ⟨fun eps => rfl, ?_, rfl, ?_⟩
  · intro values eps h
    simp [calculate_neutral_threshold, h]
  · rw [calculate_neutral_threshold, if_neg (by simp)]
    norm_num [npMedian, List.insertionSort, List.orderedInsert, List.getD,
      abs_of_nonneg, abs_of_nonpos]

theorem C4_neutral_threshold_spec_witness :
    calculate_neutral_threshold [3, -4] (1 / 20) =
      max (1 / 20) ((5 / 100) * npMedian (([3, -4] : List ℚ).map (fun v => |v|))) :=
  C4_neutral_threshold_spec.2.1 [3, -4] (1 / 20) (by decide)

/-- C5: whenever `T ≤ 0`, `sigma ≤ 0`, `S ≤ 0` or `K ≤ 0`, the closed-form
Greek calculator returns exactly the all-zero Greeks, for any option type
and any interpretation of the transcendental primitives. -/
theorem C5_degenerate_inputs_zero_greeks :
    ∀ (fns : RealFns) (S K T r q sigma : ℚ) (option_type : String),
      T ≤ 0 ∨ sigma ≤ 0 ∨ S ≤ 0 ∨ K ≤ 0 →
      calculate_greeks fns S K T r q sigma option_type = .ok ⟨0, 0, 0, 0⟩ := by
  intro fns S K T r q sigma ot h
  simp [calculate_greeks, h]

theorem C5_degenerate_inputs_zero_greeks_witness :
    calculate_greeks ⟨id, id, id, id, id⟩ 100 100 0 (1 / 20) 0 (1 / 5) "call" =
      .ok ⟨0, 0, 0, 0⟩ :=
  C5_degenerate_inputs_zero_greeks ⟨id, id, id, id, id⟩ 100 100 0 (1 / 20) 0 (1 / 5) "call"
    (Or.inl le_rfl)

/-- C6: the conductivity table — bearish alignment (G-,D-,V-,C-) gives
RALLY-CONDUCIVE under FALLING/AUTO and MIXED otherwise; bullish alignment
(G-,D+,V+,C+) gives SELL-OFF-CONDUCIVE under RISING/AUTO and MIXED
otherwise; (G-,D-,V+,C-) gives CONDITIONAL_VOID, (G-,D+,V-,C+)
BOUNCE_CANDIDATE, (G+,D+,V+,C-) CEILING_MAGNET, (G+,D+,V-,C+)
STRUCTURAL_SUPPORT, under any VIX label; every other sign combination
gives MIXED_CHOP under any VIX label. -/
theorem C6_conductivity_table :
    (∀ vix : String, vix = "FALLING" ∨ vix = "AUTO" →
      (determine_conductivity ⟨"-", "-", "-", "-"⟩ vix).1 = "RALLY-CONDUCIVE") ∧
    (∀ vix : String, ¬(vix = "FALLING" ∨ vix = "AUTO") →
      (determine_conductivity ⟨"-", "-", "-", "-"⟩ vix).1 = "MIXED") ∧
    (∀ vix : String, vix = "RISING" ∨ vix = "AUTO" →
      (determine_conductivity ⟨"-", "+", "+", "+"⟩ vix).1 = "SELL-OFF-CONDUCIVE") ∧
    (∀ vix : String, ¬(vix = "RISING" ∨ vix = "AUTO") →
      (determine_conductivity ⟨"-", "+", "+", "+"⟩ vix).1 = "MIXED") ∧
    (∀ vix : String, (determine_conductivity ⟨"-", "-", "+", "-"⟩ vix).1 = "CONDITIONAL_VOID") ∧
    (∀ vix : String, (determine_conductivity ⟨"-", "+", "-", "+"⟩ vix).1 = "BOUNCE_CANDIDATE") ∧
    (∀ vix : String, (determine_conductivity ⟨"+", "+", "+", "-"⟩ vix).1 = "CEILING_MAGNET") ∧
    (∀ vix : String, (determine_conductivity ⟨"+", "+", "-", "+"⟩ vix).1 = "STRUCTURAL_SUPPORT") ∧
    (∀ g d v c : String,
      (g = "+" ∨ g = "-" ∨ g = "o") → (d = "+" ∨ d = "-" ∨ d = "o") →
      (v = "+" ∨ v = "-" ∨ v = "o") → (c = "+" ∨ c = "-" ∨ c = "o") →
      (g, d, v, c) ∉ ([("-", "-", "-", "-"), ("-", "+", "+", "+"), ("-", "-", "+", "-"),
        ("-", "+", "-", "+"), ("+", "+", "+", "-"), ("+", "+", "-", "+")] :
          List (String × String × String × String)) →
      ∀ vix : String, (determine_conductivity ⟨g, d, v, c⟩ vix).1 = "MIXED_CHOP") := by
  refine ⟨?_, ?_, ?_, ?_, fun vix => rfl, fun vix => rfl, fun vix => rfl, fun vix => rfl, ?_⟩
  · intro vix h
    unfold determine_conductivity
    rw [if_pos rfl, if_pos ⟨rfl, rfl, rfl⟩, if_pos h]
  · intro vix h
    unfold determine_conductivity
    rw [if_pos rfl, if_pos ⟨rfl, rfl, rfl⟩, if_neg h]
  · intro vix h
    unfold determine_conductivity
    rw [if_pos rfl, if_neg (by decide), if_pos ⟨rfl, rfl, rfl⟩, if_pos h]
  · intro vix h
    unfold determine_conductivity
    rw [if_pos rfl, if_neg (by decide), if_pos ⟨rfl, rfl, rfl⟩, if_neg h]
  · intro g d v c hg hd hv hc hmem
    rcases hg with rfl | rfl | rfl <;> rcases hd with rfl | rfl | rfl <;>
      rcases hv with rfl | rfl | rfl <;> rcases hc with rfl | rfl | rfl <;>
      first
        | exact absurd (by decide) hmem
        | exact fun vix => rfl

theorem C6_conductivity_table_witness :
    (determine_conductivity ⟨"-", "-", "-", "-"⟩ "FALLING").1 = "RALLY-CONDUCIVE" ∧
    (determine_conductivity ⟨"-", "-", "-", "-"⟩ "RISING").1 = "MIXED" ∧
    (determine_conductivity ⟨"-", "+", "+", "+"⟩ "AUTO").1 = "SELL-OFF-CONDUCIVE" ∧
    (determine_conductivity ⟨"-", "+", "+", "+"⟩ "FALLING").1 = "MIXED" ∧
    (determine_conductivity ⟨"o", "o", "o", "o"⟩ "AUTO").1 = "MIXED_CHOP" :=
  ⟨C6_conductivity_table.1 "FALLING" (Or.inl rfl),
   C6_conductivity_table.2.1 "RISING" (by decide),
   C6_conductivity_table.2.2.1 "AUTO" (Or.inr rfl),
   C6_conductivity_table.2.2.2.1 "FALLING" (by decide),
   C6_conductivity_table.2.2.2.2.2.2.2.2 "o" "o" "o" "o" (Or.inr (Or.inr rfl))
     (Or.inr (Or.inr rfl)) (Or.inr (Or.inr rfl)) (Or.inr (Or.inr rfl)) (by decide) "AUTO"⟩

/-- C9: because the `terrain_map` dict literal repeats the keys
`"G- D- V+ C-"` and `"G+ D+ V- C+"` (the later entry overriding the
earlier), `classify_strike_terrain` always returns the CONDITIONAL VOID
description (never HIGH-VELOCITY DOWN) for `"G- D- V+ C-"`, and the
STRUCTURAL SUPPORT description (never BOUNCE CANDIDATE) for
`"G+ D+ V- C+"`, for every spot (nonzero, so the Python division defining
the moneyness suffix is defined) and strike. -/
theorem C9_terrain_duplicate_keys (spot strike : ℚ) (hspot : spot ≠ 0) :
    (("CONDITIONAL VOID — Accelerates down, BUT vol spike triggers MM buying (V+ override).").data.isPrefixOf
        (classify_strike_terrain "G- D- V+ C-" spot strike).1.data = true ∧
      ("HIGH-VELOCITY DOWN — Momentum amplified, but VEX provides vol-spike cushion. Trapped longs above.").data.isPrefixOf
        (classify_strike_terrain "G- D- V+ C-" spot strike).1.data = false) ∧
    (("STRUCTURAL SUPPORT — Strong compression + aggressive MM buying. High-probability floor.").data.isPrefixOf
        (classify_strike_terrain "G+ D+ V- C+" spot strike).1.data = true ∧
      ("BOUNCE CANDIDATE — Compression + buying pressure + vol-spike cushion. Reversal setup zone.").data.isPrefixOf
        (classify_strike_terrain "G+ D+ V- C+" spot strike).1.data = false) := by
  unfold classify_strike_terrain moneynessTag
  split_ifs <;> exact ⟨⟨by decide, by decide⟩, by decide, by decide⟩

theorem C9_terrain_duplicate_keys_witness :
    ("CONDITIONAL VOID — Accelerates down, BUT vol spike triggers MM buying (V+ override).").data.isPrefixOf
      (classify_strike_terrain "G- D- V+ C-" 4700 4700).1.data = true :=
  (C9_terrain_duplicate_keys 4700 4700 (by norm_num)).1.1

lemma foldl_with_logging_eq (calcExp : ContractInfo → Exposures × Greeks) :
    ∀ (l : List ContractInfo) (m : List (ℚ × StrikeAgg)),
      (∀ c ∈ l, effectivelySkipped (calcExp c).1 = false) →
      l.foldl
          (fun m c =>
            let eg := calcExp c
            if effectivelySkipped eg.1 then m else upsertStrike m c eg.1 eg.2) m =
        l.foldl
          (fun m c =>
            let eg := calcExp c
            upsertStrike m c eg.1 eg.2) m := by
  intro l
  induction l with
  | nil => intro m h; rfl
  | cons c l ih =>
    intro m h
    have hc := h c (List.mem_cons_self c l)
    simp only [List.foldl_cons]
    rw [show (let eg := calcExp c;
        if effectivelySkipped eg.1 then m else upsertStrike m c eg.1 eg.2) =
          upsertStrike m c (calcExp c).1 (calcExp c).2 from by simp [hc]]
    exact ih _ fun x hx => h x (List.mem_cons_of_mem _ hx)

lemma effectivelySkipped_zero : effectivelySkipped ⟨0, 0, 0, 0⟩ = true := by
  simp [effectivelySkipped]

lemma effectivelySkipped_ones : effectivelySkipped ⟨1, 1, 1, 1⟩ = false := by
  simp [effectivelySkipped]
  norm_num

/-- C3 counterexample: the claim that the diagnostics-tracking aggregation
always produces the same strike map as the plain aggregation is false.  A
contract whose four exposures are all exactly 0 (realizable, e.g. open
interest 500 with no usable Greeks and an expired or malformed expiration
date, so the Black-Scholes fallback returns all-zero Greeks) is dropped
entirely by the logging variant — its strike key and its 500 of call open
interest never appear — while the plain aggregation records both. -/
theorem C3_counterexample :
    aggregate_by_strike_with_logging
        (fun _ => (⟨0, 0, 0, 0⟩, ⟨0, 0, 0, 0⟩)) [⟨100, "call", 500⟩] ≠
      aggregate_by_strike
        (fun _ => (⟨0, 0, 0, 0⟩, ⟨0, 0, 0, 0⟩)) [⟨100, "call", 500⟩] := by
  have hL : aggregate_by_strike_with_logging
      (fun _ => ((⟨0, 0, 0, 0⟩ : Exposures), (⟨0, 0, 0, 0⟩ : Greeks)))
      [⟨100, "call", 500⟩] = [] := by
    simp [aggregate_by_strike_with_logging, effectivelySkipped_zero]
  have hR : aggregate_by_strike
      (fun _ => ((⟨0, 0, 0, 0⟩ : Exposures), (⟨0, 0, 0, 0⟩ : Greeks)))
      [⟨100, "call", 500⟩] =
        [(100, addContract emptyAgg ⟨100, "call", 500⟩ ⟨0, 0, 0, 0⟩ ⟨0, 0, 0, 0⟩)] := by
    simp [aggregate_by_strike, upsertStrike]
  rw [hL, hR]
  exact fun h => List.noConfusion h

/-- C3 amended: the skipped/processed tracking never changes the result
for contract lists in which no contract has all four exposures inside the
`1e-10` skip tolerance; a contract with all four exposures inside the
tolerance is dropped by the logging variant (strike key, open interest and
contract entry excluded), unlike the plain aggregation. -/
theorem C3_logging_equivalence_when_no_contract_skipped
    (calcExp : ContractInfo → Exposures × Greeks) (contracts : List ContractInfo)
    (h : ∀ c ∈ contracts, effectivelySkipped (calcExp c).1 = false) :
    aggregate_by_strike_with_logging calcExp contracts =
      aggregate_by_strike calcExp contracts :=
  foldl_with_logging_eq calcExp contracts [] h

theorem C3_logging_equivalence_witness :
    aggregate_by_strike_with_logging
        (fun _ => (⟨1, 1, 1, 1⟩, ⟨0, 0, 0, 0⟩)) [⟨100, "call", 500⟩] =
      aggregate_by_strike
        (fun _ => (⟨1, 1, 1, 1⟩, ⟨0, 0, 0, 0⟩)) [⟨100, "call", 500⟩] :=
  C3_logging_equivalence_when_no_contract_skipped _ _ fun _ _ => effectivelySkipped_ones

lemma get_exposures_matrix_fst (exps : List (String × Option (List (ℚ × ℚ)))) :
    (get_exposures_matrix exps).1 =
      (List.insertionSort (fun a b => a ≤ b) (allStrikes (exps.take 8))).take 25 := rfl

lemma get_exposures_matrix_snd (exps : List (String × Option (List (ℚ × ℚ)))) :
    (get_exposures_matrix exps).2 =
      (exps.take 8).map
        (fun e =>
          match e.2 with
          | some m => (get_exposures_matrix exps).1.map (fun strike => lookupD m strike 0)
          | none => List.replicate (get_exposures_matrix exps).1.length 0) := rfl

/-- C7: for at most 8 requested expirations the matrix has one row per
expiration in request order; the strike axis is the ascending-sorted,
duplicate-free union of all strikes seen across the successful
expirations, truncated to the first 25; each row entry is looked up in
that expiration's map with default 0, so an absent (expiration, strike)
pair is 0; and an upstream-failed expiration produces an all-zero row
while the construction continues (it is total, hence never raises). -/
theorem C7_matrix_construction (exps : List (String × Option (List (ℚ × ℚ))))
    (hlen : exps.length ≤ 8) :
    (get_exposures_matrix exps).2.length = exps.length ∧
    (get_exposures_matrix exps).1 =
      (List.insertionSort (fun a b => a ≤ b) (allStrikes exps)).take 25 ∧
    List.Sorted (· ≤ ·) (get_exposures_matrix exps).1 ∧
    (get_exposures_matrix exps).1.Nodup ∧
    (get_exposures_matrix exps).1.length ≤ 25 ∧
    (∀ s ∈ (get_exposures_matrix exps).1,
      ∃ p ∈ exps, ∃ m, p.2 = some m ∧ s ∈ m.map Prod.fst) ∧
    (∀ i, i < exps.length →
      (get_exposures_matrix exps).2.getD i [] =
        match (exps.getD i ("", none)).2 with
        | some m => (get_exposures_matrix exps).1.map (fun strike => lookupD m strike 0)
        | none => List.replicate (get_exposures_matrix exps).1.length 0) ∧
    (∀ (m : List (ℚ × ℚ)) (strike : ℚ),
      strike ∉ m.map Prod.fst → lookupD m strike 0 = 0) ∧
    (∀ i, i < exps.length → (exps.getD i ("", none)).2 = none →
      ∀ x ∈ (get_exposures_matrix exps).2.getD i [], x = 0) := by
  have htake : exps.take 8 = exps := List.take_of_length_le hlen
  have hrow : ∀ i, i < exps.length →
      (get_exposures_matrix exps).2.getD i [] =
        match (exps.getD i ("", none)).2 with
        | some m => (get_exposures_matrix exps).1.map (fun strike => lookupD m strike 0)
        | none => List.replicate (get_exposures_matrix exps).1.length 0 := by
    intro i hi
    rw [get_exposures_matrix_snd, htake, List.getD_eq_getElem?_getD,
      List.getD_eq_getElem?_getD, List.getElem?_map, List.getElem?_eq_getElem hi]
    rcases hx : (exps[i]).2 with _ | m <;> simp [hx]
  refine ⟨?_, ?_, ?_, ?_, ?_, ?_, hrow, ?_, ?_⟩
  · rw [get_exposures_matrix_snd, htake, List.length_map]
  · rw [get_exposures_matrix_fst, htake]
  · rw [get_exposures_matrix_fst]
    exact List.Pairwise.sublist (List.take_sublist _ _) (List.sorted_insertionSort _ _)
  · rw [get_exposures_matrix_fst]
    exact List.Nodup.sublist (List.take_sublist _ _)
      (((List.perm_insertionSort _ _).nodup_iff).mpr (List.nodup_dedup _))
  · rw [get_exposures_matrix_fst, List.length_take]
    exact min_le_left _ _
  · intro s hs
    rw [get_exposures_matrix_fst, htake] at hs
    have hs' := List.mem_of_mem_take hs
    rw [List.mem_insertionSort] at hs'
    rw [allStrikes, List.mem_dedup, List.mem_flatMap] at hs'
    obtain ⟨m, hm, hsm⟩ := hs'
    rw [List.mem_filterMap] at hm
    obtain ⟨p, hp, hpm⟩ := hm
    exact ⟨p, hp, m, hpm, hsm⟩
  · intro m strike hm
    induction m with
    | nil => rfl
    | cons p rest ih =>
      obtain ⟨k, v⟩ := p
      simp only [List.map_cons, List.mem_cons, not_or] at hm
      simp only [lookupD]
      rw [if_neg fun he => hm.1 he.symm]
      exact ih fun hmem => hm.2 hmem
  · intro i hi hnone x hx
    rw [hrow i hi, hnone] at hx
    exact List.eq_of_mem_replicate hx

theorem C7_matrix_construction_witness :
    (get_exposures_matrix
        [("2025-01-17", some [((4700 : ℚ), (5 : ℚ))]), ("2025-01-18", none)]).2.length = 2 :=
  (C7_matrix_construction
    [("2025-01-17", some [((4700 : ℚ), (5 : ℚ))]), ("2025-01-18", none)] (by simp)).1

lemma foldl_snd_length_step {α β γ : Type} (f : List γ × List β → α → List γ × List β)
    (hf : ∀ acc p, ((f acc p).2).length = acc.2.length + 1) :
    ∀ (l : List α) (acc : List γ × List β),
      ((l.foldl f acc).2).length = acc.2.length + l.length := by
  intro l
  induction l with
  | nil => intro acc; simp
  | cons p l ih =>
    intro acc
    rw [List.foldl_cons, ih, hf, List.length_cons]
    omega

lemma buildStrikes_snd_length (spot : ℚ) (aggs : List (ℚ × StrikeAgg)) :
    (buildStrikes spot aggs).2.length = aggs.length := by
  rw [buildStrikes, foldl_snd_length_step _ (fun acc p => by simp) aggs ([], [])]
  simp

/-- C8: when the strike aggregation yields zero processable strikes, the
exposures operation returns an error (the no-data `HTTPException`); a
successful result always carries one `StrikeData` per aggregated strike,
so a success never has an empty strike list. -/
theorem C8_zero_strikes_is_error :
    ∀ (vix : String) (spot : ℚ) (expiration : String) (aggs : List (ℚ × StrikeAgg)),
      (aggs = [] → ∃ e, get_exposures vix spot expiration aggs = .error e) ∧
      (∀ r, get_exposures vix spot expiration aggs = .ok r →
        r.strikes.length = aggs.length ∧ aggs ≠ []) := by
  intro vix spot expiration aggs
  constructor
  · rintro rfl
    simp only [get_exposures]
    by_cases h1 : vix ≠ "RISING" ∧ vix ≠ "FALLING" ∧ vix ≠ "AUTO"
    · rw [if_pos h1]
      exact ⟨_, rfl⟩
    · rw [if_neg h1, if_neg (by simp [buildStrikes])]
      exact ⟨_, rfl⟩
  · intro r hr
    simp only [get_exposures] at hr
    by_cases h1 : vix ≠ "RISING" ∧ vix ≠ "FALLING" ∧ vix ≠ "AUTO"
    · rw [if_pos h1] at hr
      exact absurd hr (by simp)
    · rw [if_neg h1] at hr
      by_cases h2 : (buildStrikes spot aggs).2.length > 0
      · rw [if_pos h2] at hr
        injection hr with hx
        constructor
        · rw [← hx]
          exact buildStrikes_snd_length spot aggs
        · rintro rfl
          rw [buildStrikes] at h2
          simp at h2
      · rw [if_neg h2] at hr
        exact absurd hr (by simp)

theorem C8_zero_strikes_is_error_witness :
    ∃ e, get_exposures "RISING" 4700 "2025-01-17" [] = .error e :=
  (C8_zero_strikes_is_error "RISING" 4700 "2025-01-17" []).1 rfl

/-- C10: the endpoints substitute FALLING for a requested AUTO regime
before any conductivity determination (`vix_regime_used` is never AUTO);
on every successful AUTO-regime exposures response the regime actually
used is FALLING and the reported conductivity/notes are exactly
`determine_conductivity` at FALLING; in particular strong bullish
alignment (G-,D+,V+,C+) under a requested AUTO yields MIXED, not
SELL-OFF-CONDUCIVE. -/
theorem C10_auto_defaults_to_falling :
    (∀ vix : String, vix_regime_used vix ≠ "AUTO") ∧
    (∀ (spot : ℚ) (expiration : String) (aggs : List (ℚ × StrikeAgg)),
      Except.map (fun r => r.vix_used) (get_exposures "AUTO" spot expiration aggs) =
        Except.map (fun _ => "FALLING") (get_exposures "AUTO" spot expiration aggs)) ∧
    (∀ (spot : ℚ) (expiration : String) (aggs : List (ℚ × StrikeAgg)),
      Except.map (fun r => (r.conductivity, r.notes))
          (get_exposures "AUTO" spot expiration aggs) =
        Except.map (fun r => determine_conductivity r.agg_regime "FALLING")
          (get_exposures "AUTO" spot expiration aggs)) ∧
    (determine_conductivity ⟨"-", "+", "+", "+"⟩ "FALLING").1 = "MIXED" := by
  refine ⟨?_, ?_, ?_, rfl⟩
  · intro vix
    unfold vix_regime_used
    split_ifs with h
    · decide
    · exact h
  · intro spot expiration aggs
    simp only [get_exposures]
    rw [if_neg (by decide)]
    split_ifs with h <;> rfl
  · intro spot expiration aggs
    simp only [get_exposures]
    rw [if_neg (by decide)]
    split_ifs with h <;> rfl

theorem C10_auto_defaults_to_falling_witness :
    vix_regime_used "AUTO" ≠ "AUTO" ∧
    Except.map (fun r => r.vix_used) (get_exposures "AUTO" 4700 "2025-01-17" []) =
      Except.map (fun _ => "FALLING") (get_exposures "AUTO" 4700 "2025-01-17" []) :=
  ⟨C10_auto_defaults_to_falling.1 "AUTO",
   C10_auto_defaults_to_falling.2.1 4700 "2025-01-17" []⟩

end Spx
